import Mathlib

/-!
Shallow embedding of `src/app/src/main/cpp/xray-core-jni.cpp`, the process
lifecycle manager of HiddifyAndroidRefactor.

The C++ file keeps a single global `pid_t xray_pid` (initially `-1`) guarded
by `pthread_mutex_t pid_mutex = PTHREAD_MUTEX_INITIALIZER` (a default,
non-recursive mutex: relocking it from the thread that already holds it
deadlocks).  We model the supervisor state explicitly: the tracked pid, the
mutex bit, and a ghost log of the signals actually delivered by `kill`.
Operating-system nondeterminism (what `fork`, `execl`, `kill` return) is
passed in as explicit environment records.  A function outcome is either a
normal return carrying the C `bool` result and the post-state, the
termination of a forked child (the `pid == 0` branch never returns to the
caller), or a deadlock on `pid_mutex`.
-/

/-- Supervisor state: the global `xray_pid` slot, the `pid_mutex` bit, and a
ghost log of `(pid, signal)` pairs delivered so far. -/
structure SupState where
  xray_pid : Int
  locked : Bool
  sent : List (Int × Nat)
deriving DecidableEq

/-- Outcome of the forked child's code block (lines 182-193): either the
process image was replaced by `execl`, or the child called `exit` with the
given status.  `fellThrough` would model reaching the end of the block and
returning into parent logic; the code never produces it. -/
inductive ChildOutcome where
  | imageReplaced
  | exited (code : Nat)
  | fellThrough
deriving DecidableEq

/-- What the OS does for the child's `execl` call: replace the image, or
fail with an errno.  `execl` returns to its caller only in the failure
case, and then always with `-1`. -/
inductive ExeclResult where
  | replaced
  | failed (errno : Nat)
deriving DecidableEq

/-- The value `execl` returns, `none` when the image is replaced (the call
never returns). -/
def execl_ret : ExeclResult → Option Int
  | .replaced => none
  | .failed _ => some (-1)

/-- The child branch of `execute_xray` (lines 182-193): run `execl`; if it
returned a negative value, `exit(1)`; the trailing unreachable line is
`exit(0)`. -/
def child_branch (r : ExeclResult) : ChildOutcome :=
  match execl_ret r with
  | none => .imageReplaced
  | some rv => if rv < 0 then .exited 1 else .exited 0

/-- OS behaviour for one `fork`/`execl` round: `fork_ret` is what `fork`
returns in the current process (negative on failure, `0` in the child,
the child's pid in the parent), and `execl_result` is what `execl` does
inside the child. -/
structure ForkEnv where
  fork_ret : Int
  execl_result : ExeclResult
deriving DecidableEq

/-- OS behaviour for one `kill_xray_process` round: `sigterm_errno` is
`none` when `kill(pid, SIGTERM)` succeeds and `some errno` when it fails;
`alive_after_grace` tells whether the `kill(pid, 0)` probe after the 100ms
sleep still finds the process. -/
structure KillEnv where
  sigterm_errno : Option Nat
  alive_after_grace : Bool
deriving DecidableEq

def ESRCH : Nat := 3
def SIGKILL : Nat := 9
def SIGTERM : Nat := 15

/-- Result of calling one of the controller functions. -/
inductive Outcome where
  | ret (success : Bool) (s : SupState)
  | child (c : ChildOutcome)
  | deadlock
deriving DecidableEq

/-- `kill_xray_process` (lines 206-237): lock `pid_mutex`; if no pid is
tracked, unlock and return true; send SIGTERM, and on any failure return
false with the pid still tracked (the errno is never inspected); otherwise
sleep 100ms, probe with signal 0, send SIGKILL if still alive, clear the
pid, unlock, return true. -/
def kill_xray_process (env : KillEnv) (s : SupState) : Outcome :=
  if s.locked then .deadlock
  else
    let s1 : SupState := { s with locked := true }
    if s1.xray_pid ≤ 0 then
      .ret true { s1 with locked := false }
    else
      match env.sigterm_errno with
      | some _ => .ret false { s1 with locked := false }
      | none =>
        let s2 : SupState := { s1 with sent := s1.sent ++ [(s1.xray_pid, SIGTERM)] }
        let s3 : SupState :=
          if env.alive_after_grace then
            { s2 with sent := s2.sent ++ [(s2.xray_pid, SIGKILL)] }
          else s2
        .ret true { s3 with xray_pid := -1, locked := false }

/-- `execute_xray` (lines 166-201): lock `pid_mutex`; if a pid is tracked,
call `kill_xray_process` (which tries to lock the same non-recursive mutex
again); then `fork`: on failure unlock and return false; in the child run
`child_branch`; in the parent record the pid, unlock and return true.
`config_path` is only handed to the child's `execl`; the parent neither
validates nor stores it. -/
def execute_xray (fenv : ForkEnv) (kenv : KillEnv) (config_path : String)
    (s : SupState) : Outcome :=
  if s.locked then .deadlock
  else
    let s1 : SupState := { s with locked := true }
    let afterKill : Outcome :=
      if 0 < s1.xray_pid then kill_xray_process kenv s1 else .ret true s1
    match afterKill with
    | .deadlock => .deadlock
    | .child c => .child c
    | .ret _ s2 =>
      if fenv.fork_ret < 0 then .ret false { s2 with locked := false }
      else if fenv.fork_ret = 0 then .child (child_branch fenv.execl_result)
      else .ret true { s2 with xray_pid := fenv.fork_ret, locked := false }

/-- The state at library load: `xray_pid = -1`, mutex free, nothing sent. -/
def initState : SupState := { xray_pid := -1, locked := false, sent := [] }

/-! ### Path resolver and environment preparer (lines 138-161, 242-244) -/

def XRAY_BIN : String := "libxray.so"

/-- `get_xray_path` (lines 242-244): pure string composition. -/
def get_xray_path (internal_dir : String) : String :=
  internal_dir ++ "/bin/" ++ XRAY_BIN

/-- Abstract filesystem: whether a path has a file, whether `chmod` on it
would succeed, and its current permission bits. -/
structure FileSys where
  present : String → Bool
  chmod_ok : String → Bool
  perms : String → Nat

/-- `chmod(path, mode)`: succeeds and sets the bits exactly when the OS
allows it. -/
def sys_chmod (fs : FileSys) (p : String) (mode : Nat) : Option FileSys :=
  if fs.chmod_ok p then
    some { fs with perms := fun q => if q = p then mode else fs.perms q }
  else none

/-- `prepare_xray_environment` (lines 138-161): fail if the binary path is
unset; fail if `stat` finds no file; `chmod 0755` and fail if that fails;
otherwise succeed.  Returns the C `bool` and the filesystem after the call. -/
def prepare_xray_environment (xray_bin_path : String) (fs : FileSys) :
    Bool × FileSys :=
  if xray_bin_path = "" then (false, fs)
  else if fs.present xray_bin_path then
    match sys_chmod fs xray_bin_path 0o755 with
    | some fs2 => (true, fs2)
    | none => (false, fs)
  else (false, fs)

/-! ### Version inspector (lines 88-115) -/

/-- OS behaviour for the `popen`/`fgets` round of `checkVersion`:
whether `popen` yields a pipe, and the raw bytes the child writes to it. -/
structure SpawnEnv where
  popen_ok : Bool
  output : List Char
deriving DecidableEq

/-- What one `fgets(buffer, 128, pipe)` stores: at most `n` characters,
stopping just after the first newline. -/
def takeLine : Nat → List Char → List Char
  | 0, _ => []
  | _, [] => []
  | n + 1, c :: cs => if c = '\n' then [c] else c :: takeLine n cs

/-- `fgets` with the 128-byte buffer of line 101: `none` (NULL) when the
stream has no data, otherwise up to 127 characters of the first line. -/
def fgets128 (out : List Char) : Option (List Char) :=
  if out = [] then none else some (takeLine 127 out)

/-- The trim of lines 105-107: drop the last character when the string is
nonempty and ends in a newline. -/
def trimNewline (buf : List Char) : List Char :=
  match buf.getLast? with
  | some c => if c = '\n' then buf.dropLast else buf
  | none => buf

/-- `Java_..._checkVersion` (lines 88-115): `"Unknown"` when the binary path
is unset; run `popen(path --version)`; `"Unknown"` when the pipe could not
be opened or `fgets` yields nothing; otherwise the fetched buffer with one
trailing newline removed. -/
def checkVersion (xray_bin_path : String) (env : SpawnEnv) : String :=
  if xray_bin_path = "" then "Unknown"
  else if env.popen_ok then
    match fgets128 env.output with
    | some buf => String.mk (trimNewline buf)
    | none => "Unknown"
  else "Unknown"

/-! ### Serialized call traces

Every access to `xray_pid` in the source happens with `pid_mutex` held for
the whole call, so concurrent invocations from several threads serialize
into some sequence of complete calls: we model a schedule as a list of
operations applied atomically in order.  A `deadlock` or `child` outcome
stops the supervisor's trace (the lock is never released again). -/

/-- One externally invoked controller operation together with the OS
behaviour it encounters. -/
inductive Op where
  | opStart (fenv : ForkEnv) (kenv : KillEnv) (cfg : String)
  | opStop (kenv : KillEnv)

/-- Run one operation. -/
def runOp (o : Op) (s : SupState) : Outcome :=
  match o with
  | .opStart fenv kenv cfg => execute_xray fenv kenv cfg s
  | .opStop kenv => kill_xray_process kenv s

/-- Run a schedule; `none` once an operation fails to return. -/
def runTrace (s : SupState) : List Op → Option SupState
  | [] => some s
  | o :: os =>
    match runOp o s with
    | .ret _ s2 => runTrace s2 os
    | _ => none

/-- The child processes the state tracks: the single `xray_pid` slot, when
positive. -/
def tracked (s : SupState) : List Int :=
  if 0 < s.xray_pid then [s.xray_pid] else []

/-! ### Helper lemmas -/

/-- Every normal return of `kill_xray_process` leaves the mutex free, and a
successful return leaves no pid tracked. -/
theorem kill_ret_props (env : KillEnv) (s : SupState) (b : Bool) (s' : SupState)
    (h : kill_xray_process env s = .ret b s') :
    s'.locked = false ∧ (b = true → s'.xray_pid ≤ 0) := by
  simp only [kill_xray_process] at h
  split at h
  · simp at h
  · split at h
    · rename_i hpid
      simp only [Outcome.ret.injEq] at h
      obtain ⟨hb, hs⟩ := h
      subst hs
      exact ⟨rfl, fun _ => hpid⟩
    · split at h
      · simp only [Outcome.ret.injEq] at h
        obtain ⟨hb, hs⟩ := h
        subst hs
        exact ⟨rfl, fun hb' => by simp [← hb] at hb'⟩
      · simp only [Outcome.ret.injEq] at h
        obtain ⟨hb, hs⟩ := h
        subst hs
        exact ⟨rfl, fun _ => by norm_num⟩

/-- Every normal return of `execute_xray` leaves the mutex free. -/
theorem exec_ret_props (fenv : ForkEnv) (kenv : KillEnv) (cfg : String)
    (s : SupState) (b : Bool) (s' : SupState)
    (h : execute_xray fenv kenv cfg s = .ret b s') : s'.locked = false := by
  simp only [execute_xray] at h
  split at h
  · simp at h
  · split at h
    · simp at h
    · simp at h
    · split at h
      · simp only [Outcome.ret.injEq] at h
        exact h.2 ▸ rfl
      · split at h
        · simp at h
        · simp only [Outcome.ret.injEq] at h
          exact h.2 ▸ rfl

/-- From Idle with the mutex free, a `start` whose `fork` fails returns
`false` and leaves the state as it was. -/
theorem exec_forkfail_shape (fenv : ForkEnv) (kenv : KillEnv) (cfg : String)
    (s : SupState) (h1 : s.locked = false) (h2 : s.xray_pid ≤ 0)
    (h3 : fenv.fork_ret < 0) :
    execute_xray fenv kenv cfg s = .ret false s := by
  obtain ⟨pid, lk, sent⟩ := s
  simp only at h1 h2
  subst h1
  simp [execute_xray, show ¬0 < pid by omega, h3]

/-- From Idle with the mutex free, a `start` whose `fork` returns a positive
pid records exactly that pid and returns `true`, whatever `execl` later does
in the child and whatever the configuration path is. -/
theorem exec_success_shape (fenv : ForkEnv) (kenv : KillEnv) (cfg : String)
    (s : SupState) (h1 : s.locked = false) (h2 : s.xray_pid ≤ 0)
    (h3 : 0 < fenv.fork_ret) :
    execute_xray fenv kenv cfg s =
      .ret true { s with xray_pid := fenv.fork_ret, locked := false } := by
  obtain ⟨pid, lk, sent⟩ := s
  simp only at h1 h2
  subst h1
  simp [execute_xray, show ¬0 < pid by omega, show ¬fenv.fork_ret < 0 by omega,
    show fenv.fork_ret ≠ 0 by omega]

/-! ### C1 -/

/-- Claim C1 (code bug): a `start` issued while a pid is tracked never
completes the stop sequence: `execute_xray` holds `pid_mutex` when it calls
`kill_xray_process`, which relocks the same non-recursive mutex, so the
call deadlocks — the old child is never signalled and no new child is
created, for every OS behaviour and configuration path. -/
theorem start_while_running_self_deadlocks (fenv : ForkEnv) (kenv : KillEnv)
    (cfg : String) :
    execute_xray fenv kenv cfg { xray_pid := 5, locked := false, sent := [] } =
      .deadlock := by
  simp [execute_xray, kill_xray_process]

/-! ### C2 -/

/-- Claim C2 counterexample: with the tracked pid 5 gone (`kill` fails with
`ESRCH`), `kill_xray_process` returns `false` and keeps pid 5 tracked — it
does not clear the handle and succeed as the claim states. -/
theorem stop_esrch_counterexample :
    kill_xray_process { sigterm_errno := some ESRCH, alive_after_grace := false }
      { xray_pid := 5, locked := false, sent := [] } =
      .ret false { xray_pid := 5, locked := false, sent := [] } ∧
    ∀ s', kill_xray_process { sigterm_errno := some ESRCH, alive_after_grace := false }
      { xray_pid := 5, locked := false, sent := [] } ≠ .ret true s' := by
  refine ⟨by decide, fun s' h => ?_⟩
  have h0 : kill_xray_process { sigterm_errno := some ESRCH, alive_after_grace := false }
      { xray_pid := 5, locked := false, sent := [] } =
      .ret false { xray_pid := 5, locked := false, sent := [] } := by decide
  rw [h0] at h
  simp at h

/-- Claim C2 amended: when sending the graceful-termination signal fails for
any reason — the errno, including `ESRCH`, is never inspected — `stop`
returns failure and leaves the state unchanged, the dead pid still tracked. -/
theorem stop_signal_failure_returns_error (env : KillEnv) (s : SupState) (e : Nat)
    (h1 : s.locked = false) (h2 : 0 < s.xray_pid)
    (h3 : env.sigterm_errno = some e) :
    kill_xray_process env s = .ret false s := by
  obtain ⟨pid, lk, sent⟩ := s
  simp only at h1 h2
  subst h1
  simp [kill_xray_process, h3, show ¬pid ≤ 0 by omega]

/-- Witness for `stop_signal_failure_returns_error` at pid 9 and `ESRCH`. -/
theorem stop_signal_failure_returns_error_witness :
    kill_xray_process { sigterm_errno := some ESRCH, alive_after_grace := false }
      { xray_pid := 9, locked := false, sent := [] } =
      .ret false { xray_pid := 9, locked := false, sent := [] } :=
  stop_signal_failure_returns_error _ _ ESRCH rfl (by decide) rfl

/-! ### C7 -/

/-- Claim C7: `stop` in the Idle state succeeds and changes nothing — in
particular the ghost signal log is unchanged, so no termination signal is
sent — and any `stop` that returned success leaves a state in which a
repeated `stop` is again such a no-op success. -/
theorem stop_idle_idempotent :
    (∀ (env : KillEnv) (s : SupState), s.locked = false → s.xray_pid ≤ 0 →
      kill_xray_process env s = .ret true s) ∧
    (∀ (env env2 : KillEnv) (s s' : SupState),
      kill_xray_process env s = .ret true s' →
      kill_xray_process env2 s' = .ret true s') := by
  have idle : ∀ (env : KillEnv) (s : SupState), s.locked = false →
      s.xray_pid ≤ 0 → kill_xray_process env s = .ret true s := by
    intro env s h1 h2
    obtain ⟨pid, lk, sent⟩ := s
    simp only at h1 h2
    subst h1
    simp [kill_xray_process, h2]
  refine ⟨idle, fun env env2 s s' h => ?_⟩
  obtain ⟨hl, hp⟩ := kill_ret_props env s true s' h
  exact idle env2 s' hl (hp rfl)

/-- Witness for `stop_idle_idempotent`: a stop from the initial Idle state
succeeds without touching the state, and so does the stop after it. -/
theorem stop_idle_idempotent_witness :
    kill_xray_process { sigterm_errno := none, alive_after_grace := false }
      initState = .ret true initState ∧
    kill_xray_process { sigterm_errno := some 1, alive_after_grace := true }
      initState = .ret true initState := by
  constructor
  · exact stop_idle_idempotent.1 _ initState rfl (by decide)
  · exact stop_idle_idempotent.2 { sigterm_errno := none, alive_after_grace := false }
      _ initState initState
      (stop_idle_idempotent.1 _ initState rfl (by decide))

/-! ### C3 -/

/-- Claim C3 counterexample: with the executable not runnable (`execl` fails
with `EACCES = 13` in the child), a `start` whose `fork` gave pid 5 still
returns success to its caller and records pid 5 — it does not return a
failure result. -/
theorem start_exec_failure_counterexample :
    execute_xray { fork_ret := 5, execl_result := .failed 13 }
      { sigterm_errno := none, alive_after_grace := false } "cfg" initState =
      .ret true { xray_pid := 5, locked := false, sent := [] } ∧
    ∀ s', execute_xray { fork_ret := 5, execl_result := .failed 13 }
      { sigterm_errno := none, alive_after_grace := false } "cfg" initState ≠
      .ret false s' := by
  refine ⟨by decide, fun s' h => ?_⟩
  have h0 : execute_xray { fork_ret := 5, execl_result := .failed 13 }
      { sigterm_errno := none, alive_after_grace := false } "cfg" initState =
      .ret true { xray_pid := 5, locked := false, sent := [] } := by decide
  rw [h0] at h
  simp at h

/-- Claim C3 amended: only a `fork` failure makes `start` return failure,
and then the supervisor returns normally with its state unchanged; a
non-runnable executable is detected only inside the child, which exits with
status 1, while the parent's `start` returns success and the supervisor
continues unaffected. -/
theorem start_failure_containment :
    (∀ (fenv : ForkEnv) (kenv : KillEnv) (cfg : String) (s : SupState),
      s.locked = false → s.xray_pid ≤ 0 → fenv.fork_ret < 0 →
      execute_xray fenv kenv cfg s = .ret false s) ∧
    (∀ e, child_branch (.failed e) = .exited 1) ∧
    (∀ (fenv : ForkEnv) (kenv : KillEnv) (cfg : String) (s : SupState),
      s.locked = false → s.xray_pid ≤ 0 → 0 < fenv.fork_ret →
      execute_xray fenv kenv cfg s =
        .ret true { s with xray_pid := fenv.fork_ret, locked := false }) :=
  ⟨exec_forkfail_shape, fun _ => rfl, exec_success_shape⟩

/-- Witness for `start_failure_containment` at concrete inputs. -/
theorem start_failure_containment_witness :
    execute_xray { fork_ret := -1, execl_result := .replaced }
      { sigterm_errno := none, alive_after_grace := false } "cfg" initState =
      .ret false initState ∧
    child_branch (.failed 13) = .exited 1 ∧
    execute_xray { fork_ret := 6, execl_result := .failed 13 }
      { sigterm_errno := none, alive_after_grace := false } "cfg" initState =
      .ret true { xray_pid := 6, locked := false, sent := [] } :=
  ⟨start_failure_containment.1 _ _ _ initState rfl (by decide) (by decide),
   start_failure_containment.2.1 13,
   start_failure_containment.2.2 _ _ _ initState rfl (by decide) (by decide)⟩

/-! ### C4 -/

/-- Claim C4: in the child branch, an `execl` failure makes the child exit
with status 1 immediately; the child never falls through into parent logic,
and every exit it can perform has a nonzero status. -/
theorem child_exec_failure_exits :
    (∀ e, child_branch (.failed e) = .exited 1) ∧
    (∀ r, child_branch r ≠ .fellThrough) ∧
    (∀ r c, child_branch r = .exited c → c ≠ 0) := by
  refine ⟨fun e => rfl, fun r => ?_, fun r c h => ?_⟩
  · cases r <;> simp [child_branch, execl_ret]
  · cases r <;> simp [child_branch, execl_ret] at h <;> omega

/-- Witness for `child_exec_failure_exits`: `execl` failing with `EACCES`
makes the child exit 1, and that status is nonzero. -/
theorem child_exec_failure_exits_witness :
    child_branch (.failed 13) = .exited 1 ∧ (1 : Nat) ≠ 0 :=
  ⟨child_exec_failure_exits.1 13,
   child_exec_failure_exits.2.2 (.failed 13) 1 (child_exec_failure_exits.1 13)⟩

/-! ### C6 -/

/-- Claim C6 counterexample: a `start` with the empty configuration path is
not rejected: from Idle, with `fork` returning 7, it records pid 7 and
returns success, and never returns a failure. -/
theorem start_empty_path_counterexample :
    execute_xray { fork_ret := 7, execl_result := .replaced }
      { sigterm_errno := none, alive_after_grace := false } "" initState =
      .ret true { xray_pid := 7, locked := false, sent := [] } ∧
    ∀ s', execute_xray { fork_ret := 7, execl_result := .replaced }
      { sigterm_errno := none, alive_after_grace := false } "" initState ≠
      .ret false s' := by
  refine ⟨by decide, fun s' h => ?_⟩
  have h0 : execute_xray { fork_ret := 7, execl_result := .replaced }
      { sigterm_errno := none, alive_after_grace := false } "" initState =
      .ret true { xray_pid := 7, locked := false, sent := [] } := by decide
  rw [h0] at h
  simp at h

/-- Claim C6 amended: the configuration path is never validated; a `start`
with the empty path proceeds to `fork` and, when `fork` succeeds, records
the child and returns success exactly as with any other path. -/
theorem start_empty_path_accepted (fenv : ForkEnv) (kenv : KillEnv)
    (s : SupState) (h1 : s.locked = false) (h2 : s.xray_pid ≤ 0)
    (h3 : 0 < fenv.fork_ret) :
    execute_xray fenv kenv "" s =
      .ret true { s with xray_pid := fenv.fork_ret, locked := false } :=
  exec_success_shape fenv kenv "" s h1 h2 h3

/-- Witness for `start_empty_path_accepted` from the initial state. -/
theorem start_empty_path_accepted_witness :
    execute_xray { fork_ret := 7, execl_result := .replaced }
      { sigterm_errno := some 1, alive_after_grace := false } "" initState =
      .ret true { xray_pid := 7, locked := false, sent := [] } :=
  start_empty_path_accepted _ _ initState rfl (by decide) (by decide)

/-! ### C10 -/

/-- Claim C10 counterexample: the recorded handle cannot contain the
configuration path — two launches with different paths end in the very same
state, so no function of the state returns the launch path — and it cannot
distinguish launches either: after start, stop, start with the OS recycling
pid 5, the recorded identity equals the one recorded for the first launch. -/
theorem handle_records_only_pid_counterexample :
    (execute_xray { fork_ret := 5, execl_result := .replaced }
      { sigterm_errno := none, alive_after_grace := false } "a.json" initState =
     execute_xray { fork_ret := 5, execl_result := .replaced }
      { sigterm_errno := none, alive_after_grace := false } "b.json" initState) ∧
    (¬ ∃ getCfg : SupState → String,
      ∀ (fenv : ForkEnv) (kenv : KillEnv) (cfg : String) (s s' : SupState),
        execute_xray fenv kenv cfg s = .ret true s' → getCfg s' = cfg) ∧
    (∃ s1 s3 : SupState,
      execute_xray { fork_ret := 5, execl_result := .replaced }
        { sigterm_errno := none, alive_after_grace := false } "a.json" initState =
        .ret true s1 ∧
      runTrace initState
        [Op.opStart { fork_ret := 5, execl_result := .replaced }
           { sigterm_errno := none, alive_after_grace := false } "a.json",
         Op.opStop { sigterm_errno := none, alive_after_grace := false },
         Op.opStart { fork_ret := 5, execl_result := .replaced }
           { sigterm_errno := none, alive_after_grace := false } "a.json"] =
        some s3 ∧
      s1.xray_pid = s3.xray_pid) := by
  refine ⟨by decide, fun ⟨g, hg⟩ => ?_, ?_⟩
  · have ha := hg { fork_ret := 5, execl_result := .replaced }
      { sigterm_errno := none, alive_after_grace := false } "a.json" initState
      { xray_pid := 5, locked := false, sent := [] } (by decide)
    have hb := hg { fork_ret := 5, execl_result := .replaced }
      { sigterm_errno := none, alive_after_grace := false } "b.json" initState
      { xray_pid := 5, locked := false, sent := [] } (by decide)
    have : ("a.json" : String) = "b.json" := ha.symm.trans hb
    simp at this
  · exact ⟨{ xray_pid := 5, locked := false, sent := [] },
      { xray_pid := 5, locked := false, sent := [(5, SIGTERM)] },
      by decide, by decide, rfl⟩

/-- Claim C10 amended: on every successful `start` the code records only the
new child's process id in the single global slot; nothing else changes, so
no generation counter and no configuration path are stored. -/
theorem start_records_pid_only (fenv : ForkEnv) (kenv : KillEnv) (cfg : String)
    (s : SupState) (h1 : s.locked = false) (h2 : s.xray_pid ≤ 0)
    (h3 : 0 < fenv.fork_ret) :
    execute_xray fenv kenv cfg s =
      .ret true { s with xray_pid := fenv.fork_ret, locked := false } :=
  exec_success_shape fenv kenv cfg s h1 h2 h3

/-- Witness for `start_records_pid_only` from the initial state. -/
theorem start_records_pid_only_witness :
    execute_xray { fork_ret := 12, execl_result := .replaced }
      { sigterm_errno := none, alive_after_grace := true } "b.json" initState =
      .ret true { xray_pid := 12, locked := false, sent := [] } :=
  start_records_pid_only _ _ "b.json" initState rfl (by decide) (by decide)

/-! ### C5 -/

/-- Claim C5: because every operation holds the single `pid_mutex` for its
whole duration, concurrent invocations serialize into a trace of atomic
calls; at any state at most one child is tracked, the trace invariant (lock
free between calls) is preserved by every completed schedule, and a second
`start` can never complete — let alone record a handle — while a pid is
already tracked, so no two `start` calls both record a handle without an
intervening clearing `stop`. -/
theorem lock_serializes_start_stop :
    (∀ s : SupState, (tracked s).length ≤ 1) ∧
    (∀ (ops : List Op) (s s' : SupState), s.locked = false →
      runTrace s ops = some s' → s'.locked = false) ∧
    (∀ (fenv : ForkEnv) (kenv : KillEnv) (cfg : String) (s : SupState)
      (b : Bool) (s' : SupState), s.locked = false → 0 < s.xray_pid →
      execute_xray fenv kenv cfg s ≠ .ret b s') := by
  refine ⟨fun s => ?_, fun ops => ?_, fun fenv kenv cfg s b s' h1 h2 h => ?_⟩
  · unfold tracked
    split <;> simp
  · induction ops with
    | nil => intro s s' h1 h2; simp only [runTrace, Option.some.injEq] at h2; exact h2 ▸ h1
    | cons o os ih =>
      intro s s' h1 h2
      simp only [runTrace] at h2
      split at h2
      · rename_i b s2 ho
        have hl : s2.locked = false := by
          cases o with
          | opStart fenv kenv cfg => exact exec_ret_props fenv kenv cfg s b s2 ho
          | opStop kenv => exact (kill_ret_props kenv s b s2 ho).1
        exact ih s2 s' hl h2
      · exact absurd h2 (by simp)
  · obtain ⟨pid, lk, sent⟩ := s
    simp only at h1 h2
    subst h1
    simp [execute_xray, kill_xray_process, h2] at h

/-- Witness for `lock_serializes_start_stop`: the tracked set of the initial
state has at most one element; a completed start-stop schedule leaves the
lock free; and a start from a Running state never returns. -/
theorem lock_serializes_start_stop_witness :
    (tracked initState).length ≤ 1 ∧
    ({ xray_pid := -1, locked := false, sent := [(5, SIGTERM)] } : SupState).locked
      = false ∧
    execute_xray { fork_ret := 7, execl_result := .replaced }
      { sigterm_errno := none, alive_after_grace := false } "cfg"
      { xray_pid := 3, locked := false, sent := [] } ≠ .ret true initState := by
  refine ⟨lock_serializes_start_stop.1 initState, ?_, ?_⟩
  · exact lock_serializes_start_stop.2.1
      [Op.opStart { fork_ret := 5, execl_result := .replaced }
         { sigterm_errno := none, alive_after_grace := false } "a.json",
       Op.opStop { sigterm_errno := none, alive_after_grace := false }]
      initState { xray_pid := -1, locked := false, sent := [(5, SIGTERM)] }
      rfl (by decide)
  · exact lock_serializes_start_stop.2.2 _ _ "cfg"
      { xray_pid := 3, locked := false, sent := [] } true initState rfl (by decide)

/-! ### C8 -/

/-- Claim C8: when the file is present and `chmod` on it is permitted,
`prepare_xray_environment` succeeds, a second call succeeds identically, and
both calls leave the file with exactly the `0755` bits; the second call
changes no permission at all. -/
theorem prepare_idempotent (fs : FileSys) (p : String) (h1 : p ≠ "")
    (h2 : fs.present p = true) (h3 : fs.chmod_ok p = true) :
    ∃ fs1 fs2 : FileSys,
      prepare_xray_environment p fs = (true, fs1) ∧
      prepare_xray_environment p fs1 = (true, fs2) ∧
      fs1.perms p = 0o755 ∧ fs2.perms p = 0o755 ∧ fs2.perms = fs1.perms := by
  have upd1 : prepare_xray_environment p fs =
      (true, { fs with perms := fun q => if q = p then 0o755 else fs.perms q }) := by
    simp [prepare_xray_environment, sys_chmod, h1, h2, h3]
  have collapse : (fun q => if q = p then (0o755 : Nat) else
      if q = p then 0o755 else fs.perms q) =
      (fun q => if q = p then (0o755 : Nat) else fs.perms q) := by
    funext q
    by_cases hq : q = p <;> simp [hq]
  have upd2 : prepare_xray_environment p
      { fs with perms := fun q => if q = p then 0o755 else fs.perms q } =
      (true, { fs with perms := fun q => if q = p then 0o755 else fs.perms q }) := by
    simp [prepare_xray_environment, sys_chmod, h1, h2, h3, collapse]
  exact ⟨_, _, upd1, upd2, by simp, by simp, rfl⟩

/-- A filesystem in which every path holds a `0644` file and `chmod` always
succeeds, used to witness `prepare_idempotent`. -/
def allFiles : FileSys :=
  { present := fun _ => true, chmod_ok := fun _ => true, perms := fun _ => 0o644 }

/-- Witness for `prepare_idempotent` on the resolved path of base directory
`/data/app123`. -/
theorem prepare_idempotent_witness :
    ∃ fs1 fs2 : FileSys,
      prepare_xray_environment (get_xray_path "/data/app123") allFiles = (true, fs1) ∧
      prepare_xray_environment (get_xray_path "/data/app123") fs1 = (true, fs2) ∧
      fs1.perms (get_xray_path "/data/app123") = 0o755 ∧
      fs2.perms (get_xray_path "/data/app123") = 0o755 ∧
      fs2.perms = fs1.perms :=
  prepare_idempotent allFiles _ (by decide) rfl rfl

/-! ### C9 -/

/-- The specification's notion of the first output line: everything up to,
and excluding, the first newline. -/
def spec_first_line (out : List Char) : List Char :=
  out.takeWhile fun c => c ≠ '\n'

/-- Removing one trailing newline commutes with prepending a non-newline
character. -/
theorem trimNewline_cons (c : Char) (l : List Char) (hc : ¬c = '\n') :
    trimNewline (c :: l) = c :: trimNewline l := by
  cases l with
  | nil => simp [trimNewline, hc]
  | cons d ds =>
    simp only [trimNewline, List.getLast?_cons_cons]
    cases hl : (d :: ds).getLast? with
    | none => simp at hl
    | some e =>
      by_cases he : e = '\n' <;> simp [he, List.dropLast]

/-- What the buffered `fgets` plus the trailing-newline trim computes: the
first line, truncated to the buffer capacity. -/
theorem trimNewline_takeLine (n : Nat) (out : List Char) :
    trimNewline (takeLine n out) = (spec_first_line out).take n := by
  induction out generalizing n with
  | nil => cases n <;> simp [takeLine, trimNewline, spec_first_line]
  | cons c cs ih =>
    cases n with
    | zero => simp [takeLine, trimNewline, spec_first_line]
    | succ n =>
      by_cases hc : c = '\n'
      · subst hc
        simp [takeLine, trimNewline, spec_first_line, List.takeWhile_cons]
      · simp [takeLine, hc, trimNewline_cons c _ hc, ih n, spec_first_line,
          List.takeWhile_cons]

/-- The stream a core would produce when its one version line does not fit
the 128-byte buffer: 128 copies of `a` and no newline. -/
def longOut : List Char := List.replicate 128 'a'

/-- Claim C9 counterexample: with a 128-character first line the code
returns only the first 127 characters, not the first line; and with the
core printing the line `Unknown`, the sentinel is returned even though the
path is set, the spawn succeeded and an output line was produced. -/
theorem checkVersion_truncation_counterexample :
    checkVersion "/data/app123/bin/libxray.so" { popen_ok := true, output := longOut } =
      String.mk (List.replicate 127 'a') ∧
    String.mk (List.replicate 127 'a') ≠ String.mk (spec_first_line longOut) ∧
    checkVersion "/data/app123/bin/libxray.so"
      { popen_ok := true, output := ['U', 'n', 'k', 'n', 'o', 'w', 'n', '\n'] } =
      "Unknown" := by
  refine ⟨by decide, by decide, by decide⟩

/-- Claim C9 amended: `checkVersion` returns `"Unknown"` whenever the binary
path is unset, the pipe cannot be opened, or no output is produced; in every
other case it returns the first output line truncated to at most 127
characters (the `fgets` buffer keeps 127 bytes) with the trailing newline
removed — a value that can coincide with `"Unknown"` when the core itself
prints that line. -/
theorem checkVersion_first_line_spec (p : String) (env : SpawnEnv) :
    ((p = "" ∨ env.popen_ok = false ∨ env.output = []) →
      checkVersion p env = "Unknown") ∧
    (p ≠ "" → env.popen_ok = true → env.output ≠ [] →
      checkVersion p env = String.mk ((spec_first_line env.output).take 127)) := by
  constructor
  · rintro (h | h | h)
    · simp [checkVersion, h]
    · by_cases hp : p = "" <;> simp [checkVersion, hp, h]
    · by_cases hp : p = "" <;> by_cases ho : env.popen_ok <;>
        simp [checkVersion, hp, ho, fgets128, h]
  · intro h1 h2 h3
    simp [checkVersion, h1, h2, fgets128, h3, trimNewline_takeLine]

/-- Witness for `checkVersion_first_line_spec`: the sentinel for the unset
path, and the trimmed first line for a two-line output. -/
theorem checkVersion_first_line_spec_witness :
    checkVersion "" { popen_ok := true, output := ['v', '\n'] } = "Unknown" ∧
    checkVersion "/data/app123/bin/libxray.so"
      { popen_ok := true, output := ['v', '1', '\n', 'x'] } =
      String.mk ((spec_first_line ['v', '1', '\n', 'x']).take 127) :=
  ⟨(checkVersion_first_line_spec "" _).1 (Or.inl rfl),
   (checkVersion_first_line_spec _ _).2 (by decide) rfl (by decide)⟩
